import Mathlib

/-!
Verification development for the geometry pipeline of `src/src/Mobject.js`
(manim-renderer).  The JavaScript source is shallowly embedded:

* the path-building first half of `Mobject.computeShapes` (lines 63-92)
  becomes `buildLoop`/`buildPaths`;
* the shape-classifying second half (lines 94-137) becomes
  `innerLoop`/`outerLoop`/`trailingLoop`/`classify`;
* the lifecycle methods (`constructor`, `update`) become `construct`/`update`
  over an explicit heap `World` that models JavaScript object identity for the
  module-level `DEFAULT_STYLE` object and for geometry buffers.

The helpers `utils.allClose` and `utils.isPointInsidePolygon` live in a file
that is not part of the sources under verification; they are abstracted as
boolean-valued parameters (`ac`, `ins`), so every theorem below holds for any
choice of tolerance comparison and point-in-polygon test.
-/

namespace ManimRenderer

variable {P Q : Type}

/-- One reconstructed Bézier path, as built by `THREE.Path` in
`Mobject.computeShapes`: the `moveTo` start point together with the list of
`bezierCurveTo` segments `(ctrl1, ctrl2, endPoint)` appended to it. -/
structure BPath (P : Type) where
  start : P
  curves : List (P × P × P)
deriving DecidableEq

/-- The path-building loop of `Mobject.computeShapes` (src/src/Mobject.js
lines 63-92).  Iteration `i` of the JS `for` loop corresponds to the call with
`rest = points.drop (4*i)`; the loop guard `i < points.length / 4` corresponds
to `rest ≠ []`.  A nonempty `rest` with fewer than four points corresponds to
the out-of-bounds access `points[curveStartIndex + k]` (which is `undefined`,
so the subsequent component read raises a TypeError in JS) and is embedded as
`Except.error ()`.  The `none` current-path case likewise mirrors the JS
TypeError of calling `bezierCurveTo` on an unassigned `path` variable; it is
unreachable from `buildPaths` because `move` starts out `true`.
`ac` stands for `utils.allClose`. -/
def buildLoop (ac : P → P → Bool) :
    List P → Option (BPath P) → Bool → List (BPath P) → Except Unit (List (BPath P))
  | p0 :: c1 :: c2 :: pe :: [], path, move, paths =>
    match (if move then some ⟨p0, []⟩ else path) with
    | none => Except.error ()
    | some path0 =>
      let path1 : BPath P := ⟨path0.start, path0.curves ++ [(c1, c2, pe)]⟩
      Except.ok (paths ++ [path1])
  | p0 :: c1 :: c2 :: pe :: pn :: rest3, path, move, paths =>
    match (if move then some ⟨p0, []⟩ else path) with
    | none => Except.error ()
    | some path0 =>
      let path1 : BPath P := ⟨path0.start, path0.curves ++ [(c1, c2, pe)]⟩
      let mv := !(ac pe pn)
      buildLoop ac (pn :: rest3) (some path1) mv (if mv then paths ++ [path1] else paths)
  | [], _, _, paths => Except.ok paths
  | _ :: _, _, _, _ => Except.error ()

/-- Path building (spec §4.1 `buildPaths`): the first half of
`Mobject.computeShapes` run from its initial state (`move = true`, no current
path, no finished paths). -/
def buildPaths (ac : P → P → Bool) (points : List P) : Except Unit (List (BPath P)) :=
  buildLoop ac points none true []

/-- Total number of Bézier segments over a list of built paths. -/
def totalSegs (paths : List (BPath P)) : Nat :=
  (paths.map (fun q => q.curves.length)).sum

/-- Segment count still held by the in-progress path: it has been pushed to
`paths` already exactly when `move` is true. -/
def pendingSegs (path : Option (BPath P)) (move : Bool) : Nat :=
  if move then 0 else (path.map (fun q => q.curves.length)).getD 0

/-- The segments `(ctrl1, ctrl2, endPoint)` encoded four points at a time by a
flat point sequence. -/
def segsOf : List P → List (P × P × P)
  | _ :: c1 :: c2 :: pe :: rest2 => (c1, c2, pe) :: segsOf rest2
  | _ => []

/-- Property of a flat point sequence: the end point of every segment is
`allClose` to the start point of the following segment (the condition the JS
loop tests at `points[curveStartIndex + 3]` vs `points[curveStartIndex + 4]`). -/
def chunkClose (ac : P → P → Bool) : List P → Bool
  | _ :: _ :: _ :: pe :: pn :: rest2 => ac pe pn && chunkClose ac (pn :: rest2)
  | _ => true

/-- A classified shape (`THREE.Shape` as used in `Mobject.computeShapes`):
the outer path's curves plus the hole paths pushed onto it. -/
structure CShape (Q : Type) where
  outer : Q
  holes : List Q
deriving DecidableEq

/-- The inner `j` loop of the classifier (src/src/Mobject.js lines 102-125)
for a fixed outer candidate `i` with value `pI = paths[i]`.  The first list
argument is the list of remaining values of `j` (`List.range paths.length`
initially); the state is the pair of the `decided_path_indices` list and the
current `known_shape`.  `ins outerPath candidate` stands for
`utils.isPointInsidePolygon(candidate.getPoint(0), outerPath.getPoints())`.
The `none` result of `paths.get? j` cannot occur for `j` drawn from
`List.range paths.length`. -/
def innerLoop (ins : Q → Q → Bool) (paths : List Q) (pI : Q) (i : Nat) :
    List Nat → List Nat × Option (CShape Q) → List Nat × Option (CShape Q)
  | [], st => st
  | j :: js, (dec, known) =>
    if i = j || dec.contains j then innerLoop ins paths pI i js (dec, known)
    else
      match paths.get? j with
      | none => innerLoop ins paths pI i js (dec, known)
      | some pJ =>
        if ins pI pJ then
          match known with
          | none =>
            innerLoop ins paths pI i js (dec ++ [i, j], some ⟨pI, [pJ]⟩)
          | some s =>
            innerLoop ins paths pI i js (dec ++ [j], some ⟨s.outer, s.holes ++ [pJ]⟩)
        else innerLoop ins paths pI i js (dec, known)

/-- The outer `i` loop of the classifier (src/src/Mobject.js lines 96-129).
The state is the pair of the `decided_path_indices` list and the accumulated
`shapes` list. -/
def outerLoop (ins : Q → Q → Bool) (paths : List Q) :
    List Nat → List Nat × List (CShape Q) → List Nat × List (CShape Q)
  | [], st => st
  | i :: ks, (dec, shapes) =>
    if dec.contains i then outerLoop ins paths ks (dec, shapes)
    else
      match paths.get? i with
      | none => outerLoop ins paths ks (dec, shapes)
      | some pI =>
        match innerLoop ins paths pI i (List.range paths.length) (dec, none) with
        | (dec1, some s) => outerLoop ins paths ks (dec1, shapes ++ [s])
        | (dec1, none) => outerLoop ins paths ks (dec1, shapes)

/-- The trailing loop of the classifier (src/src/Mobject.js lines 132-136).
Its JS loop condition is `i < paths.length && !decided_path_indices.has(i)`,
so reaching a decided index STOPS the loop (it does not skip and continue);
this is embedded faithfully by returning `shapes` as soon as `dec.contains i`. -/
def trailingLoop (paths : List Q) (dec : List Nat) :
    List Nat → List (CShape Q) → List (CShape Q)
  | [], shapes => shapes
  | i :: ks, shapes =>
    if dec.contains i then shapes
    else
      match paths.get? i with
      | none => shapes
      | some pI => trailingLoop paths dec ks (shapes ++ [⟨pI, []⟩])

/-- The shape classifier (spec §4.2 `classify`): the second half of
`Mobject.computeShapes`, i.e. the double loop followed by the trailing loop. -/
def classify (ins : Q → Q → Bool) (paths : List Q) : List (CShape Q) :=
  let st := outerLoop ins paths (List.range paths.length) ([], [])
  trailingLoop paths st.1 (List.range paths.length) st.2

/-- `Mobject.computeShapes` in full: build paths from the flat point list,
then classify them into shapes.  A JS TypeError from a malformed point list
propagates as `Except.error ()`. -/
def computeShapes (ac : P → P → Bool) (ins : BPath P → BPath P → Bool)
    (points : List P) : Except Unit (List (CShape (BPath P))) :=
  (buildPaths ac points).map (classify ins)

/-- The style record (src/src/Mobject.js lines 7-13).  Colors are packed RGB
naturals, opacities and the stroke width are rationals (JS numbers). -/
structure Style where
  strokeColor : Nat
  strokeOpacity : ℚ
  fillColor : Nat
  fillOpacity : ℚ
  strokeWidth : ℚ
deriving DecidableEq

/-- The initial contents of the module-level `DEFAULT_STYLE` object
(src/src/Mobject.js lines 7-13). -/
def DEFAULT_STYLE : Style :=
  { strokeColor := 0xffffff
    strokeOpacity := 1
    fillColor := 0x000000
    fillOpacity := 1
    strokeWidth := 4 }

/-- `STROKE_SHRINK_FACTOR` (src/src/Mobject.js line 15). -/
def STROKE_SHRINK_FACTOR : ℚ := 100

/-- An incoming style argument: a JS object that may carry any subset of the
five style properties (`none` models an absent property, whose read yields
`undefined`). -/
structure StyleArg where
  strokeColor : Option Nat := none
  strokeOpacity : Option ℚ := none
  fillColor : Option Nat := none
  fillOpacity : Option ℚ := none
  strokeWidth : Option ℚ := none
deriving DecidableEq

/-- The value part of JS `Object.assign(target, src)` on style objects: every
property present on `src` overwrites the matching property of `target`;
absent properties keep `target`'s values. -/
def assignStyle (target : Style) (src : StyleArg) : Style :=
  { strokeColor := src.strokeColor.getD target.strokeColor
    strokeOpacity := src.strokeOpacity.getD target.strokeOpacity
    fillColor := src.fillColor.getD target.fillColor
    fillOpacity := src.fillOpacity.getD target.fillOpacity
    strokeWidth := src.strokeWidth.getD target.strokeWidth }

/-- The observable fields of the fill material
(`computeFillMaterial`/`updateFillMaterial`, src/src/Mobject.js lines 192-206). -/
structure FillMaterial where
  color : Nat
  opacity : ℚ
deriving DecidableEq

/-- The observable fields of the stroke material
(`computeStrokeMaterial`/`updateStrokeMaterial`, src/src/Mobject.js
lines 167-182). -/
structure StrokeMaterial where
  color : Nat
  opacity : ℚ
  lineWidth : ℚ
deriving DecidableEq

/-- Modelled from the spec: a geometry buffer owned by an entity.  The
tessellation collaborator `MobjectFillBufferGeometry` and the line-ribbon
collaborator (`MeshLine`) are not among the sources under verification; per
spec §6 a buffer is modelled as the shape list it was last built from,
together with a version counter that its in-place `update(shapes)` refresh
bumps, and a `disposed` flag set by `dispose()`. -/
structure GBuffer (S : Type) where
  content : S
  version : Nat
  disposed : Bool
deriving DecidableEq

/-- The mutable JS heap relevant to `Mobject`: the style-object heap (address
`0` is the module-level `DEFAULT_STYLE` object) and the geometry-buffer heap. -/
structure World (P : Type) where
  styles : List Style
  buffers : List (GBuffer (List (CShape (BPath P))))

/-- Heap address of the module-level `DEFAULT_STYLE` object. -/
def defaultStyleRef : Nat := 0

/-- The heap at module load time: only the `DEFAULT_STYLE` object exists. -/
def initWorld (P : Type) : World P :=
  { styles := [DEFAULT_STYLE], buffers := [] }

/-- A drawable entity (`Mobject`, src/src/Mobject.js lines 17-33): its id, the
heap address its `style` field references, the shape list, the heap addresses
of its fill and stroke geometry buffers, and its two materials. -/
structure MobjectE (P : Type) where
  mobjectId : Nat
  styleRef : Nat
  shapes : List (CShape (BPath P))
  fillGeom : Nat
  fillMat : FillMaterial
  strokeGeom : Nat
  strokeMat : StrokeMaterial

/-- Dereference a style address (the read `this.style` performs). -/
def readStyle (w : World P) (r : Nat) : Style :=
  (w.styles.get? r).getD DEFAULT_STYLE

/-- Overwrite the style object at an address in place. -/
def writeStyle (w : World P) (r : Nat) (s : Style) : World P :=
  { w with styles := w.styles.set r s }

/-- JS `Object.assign(target, src)` at the heap level: mutates the object the
address points to and returns that same address (JS `Object.assign` returns
its first argument, not a copy). -/
def objAssign (w : World P) (r : Nat) (src : StyleArg) : World P × Nat :=
  (writeStyle w r (assignStyle (readStyle w r) src), r)

/-- Dereference a buffer address. -/
def readBuffer (w : World P) (r : Nat) : GBuffer (List (CShape (BPath P))) :=
  (w.buffers.get? r).getD { content := [], version := 0, disposed := true }

/-- Overwrite the buffer at an address in place. -/
def writeBuffer (w : World P) (r : Nat) (b : GBuffer (List (CShape (BPath P)))) :
    World P :=
  { w with buffers := w.buffers.set r b }

/-- Allocate a fresh geometry buffer holding the given shapes
(`computeFillGeometry` / `computeStrokeGeometry` allocate a new geometry
object each time they are called). -/
def allocBuffer (w : World P) (content : List (CShape (BPath P))) : World P × Nat :=
  ({ w with buffers := w.buffers ++ [{ content := content, version := 0, disposed := false }] },
   w.buffers.length)

/-- `updateFillGeometry` (src/src/Mobject.js lines 188-190): the in-place
`this.fillMesh.geometry.update(this.shapes)` refresh — same buffer address,
content replaced by the current shapes, version bumped. -/
def updateFillGeometry (w : World P) (e : MobjectE P) : World P :=
  let b := readBuffer w e.fillGeom
  writeBuffer w e.fillGeom
    { content := e.shapes, version := b.version + 1, disposed := b.disposed }

/-- `geometry.dispose()`: marks the buffer at the address as disposed. -/
def disposeBuffer (w : World P) (r : Nat) : World P :=
  let b := readBuffer w r
  writeBuffer w r { content := b.content, version := b.version, disposed := true }

/-- `computeFillMaterial` (src/src/Mobject.js lines 192-200), restricted to
the observable fields. -/
def computeFillMaterial (s : Style) : FillMaterial :=
  { color := s.fillColor, opacity := s.fillOpacity }

/-- `computeStrokeMaterial` (src/src/Mobject.js lines 167-175), restricted to
the observable fields. -/
def computeStrokeMaterial (s : Style) : StrokeMaterial :=
  { color := s.strokeColor
    opacity := s.strokeOpacity
    lineWidth := s.strokeWidth / STROKE_SHRINK_FACTOR }

/-- The `Mobject` constructor (src/src/Mobject.js lines 18-33):
`this.style = Object.assign(DEFAULT_STYLE, style)` (note: the module-level
object is the assignment target), then `this.shapes = this.computeShapes(points)`,
then the fill mesh and the stroke mesh are created from fresh geometries and
materials. -/
def construct (ac : P → P → Bool) (ins : BPath P → BPath P → Bool)
    (w : World P) (mid : Nat) (points : List P) (arg : StyleArg) :
    Except Unit (World P × MobjectE P) :=
  match computeShapes ac ins points with
  | Except.error u => Except.error u
  | Except.ok shapes =>
    let (w1, sref) := objAssign w defaultStyleRef arg
    let sty := readStyle w1 sref
    let (w2, fref) := allocBuffer w1 shapes
    let (w3, kref) := allocBuffer w2 shapes
    Except.ok (w3,
      { mobjectId := mid
        styleRef := sref
        shapes := shapes
        fillGeom := fref
        fillMat := computeFillMaterial sty
        strokeGeom := kref
        strokeMat := computeStrokeMaterial sty })

/-- The tail of `Mobject.update` (src/src/Mobject.js lines 51-53):
`this.style = Object.assign(this.style, style)` merges the incoming fields
into the referenced style object in place, then `updateFillMaterial` and
`updateStrokeMaterial` refresh both materials from it. -/
def mergeAndRefresh (w : World P) (e : MobjectE P) (arg : StyleArg) :
    World P × MobjectE P :=
  let (w4, r4) := objAssign w e.styleRef arg
  let sty := readStyle w4 r4
  (w4,
    { e with
      styleRef := r4
      fillMat := computeFillMaterial sty
      strokeMat := computeStrokeMaterial sty })

/-- The `needsRedraw` block of `Mobject.update` (src/src/Mobject.js lines
36-49): recompute the shapes, refresh the fill geometry in place unless both
`this.style.fillOpacity` and the raw incoming `style.fillOpacity` are `=== 0`,
and dispose-and-reallocate the stroke geometry unless both
`this.style.strokeOpacity` and the raw incoming `style.strokeOpacity` are
`=== 0` (an absent incoming property reads as `undefined`, which is not
`=== 0`). -/
def redrawGeometry (ac : P → P → Bool) (ins : BPath P → BPath P → Bool)
    (w : World P) (e : MobjectE P) (points : List P) (arg : StyleArg) :
    Except Unit (World P × MobjectE P) :=
  match computeShapes ac ins points with
  | Except.error u => Except.error u
  | Except.ok shapes =>
    let eR : MobjectE P := { e with shapes := shapes }
    let prev := readStyle w eR.styleRef
    let wF :=
      if prev.fillOpacity = 0 ∧ arg.fillOpacity = some 0 then w
      else updateFillGeometry w eR
    if prev.strokeOpacity = 0 ∧ arg.strokeOpacity = some 0 then
      Except.ok (wF, eR)
    else
      let wD := disposeBuffer wF eR.strokeGeom
      let (wA, r) := allocBuffer wD eR.shapes
      Except.ok (wA, { eR with strokeGeom := r })

/-- `Mobject.update` (src/src/Mobject.js lines 35-54): the geometry block runs
only when `needsRedraw` is set, then the style merge and material refresh run
unconditionally. -/
def update (ac : P → P → Bool) (ins : BPath P → BPath P → Bool)
    (w : World P) (e : MobjectE P) (points : List P) (arg : StyleArg)
    (needsRedraw : Bool) : Except Unit (World P × MobjectE P) :=
  if needsRedraw then
    match redrawGeometry ac ins w e points arg with
    | Except.error u => Except.error u
    | Except.ok (w1, e1) => Except.ok (mergeAndRefresh w1 e1 arg)
  else Except.ok (mergeAndRefresh w e arg)

/-- `Mobject.dispose` (src/src/Mobject.js lines 56-61), restricted to the
geometry buffers (material disposal has no observable field in this model). -/
def disposeMobject (w : World P) (e : MobjectE P) : World P :=
  disposeBuffer (disposeBuffer w e.fillGeom) e.strokeGeom

/-- A trivial instantiation of the `allClose` parameter, used in concrete
witnesses. -/
def acT : Nat → Nat → Bool := fun _ _ => true

/-- `allClose` instantiated as equality on sample points encoded as naturals,
used in concrete witnesses. -/
def acE : Nat → Nat → Bool := fun a b => a == b

/-- A trivial instantiation of the point-in-polygon parameter, used in
concrete witnesses. -/
def insT : BPath Nat → BPath Nat → Bool := fun _ _ => false

/-- A containment table on paths labelled by naturals: path 5 contains path 7
and nothing else.  Used in concrete witnesses. -/
def insP : Nat → Nat → Bool := fun a b => decide (a = 5 ∧ b = 7)

/-- A containment table on paths labelled by naturals: path 0 contains path 1
and nothing else (path 2 is disjoint from everything).  Used to exhibit the
trailing-loop early stop. -/
def insD : Nat → Nat → Bool := fun a b => decide (a = 0 ∧ b = 1)

/-- A live geometry buffer holding no shapes, used in witness scenarios. -/
def bufT : GBuffer (List (CShape (BPath Nat))) :=
  { content := [], version := 0, disposed := false }

/-- The heap right after constructing one entity from empty points and an
empty style argument in a fresh module. -/
def wT : World Nat := { styles := [DEFAULT_STYLE], buffers := [bufT, bufT] }

/-- A heap whose shared style object has fill opacity zero. -/
def wF0 : World Nat :=
  { styles := [{ DEFAULT_STYLE with fillOpacity := 0 }], buffers := [bufT, bufT] }

/-- A heap whose shared style object has fill and stroke opacity zero. -/
def wZ : World Nat :=
  { styles := [{ DEFAULT_STYLE with fillOpacity := 0, strokeOpacity := 0 }],
    buffers := [bufT, bufT] }

/-- The entity produced by constructing from empty points and an empty style
argument in a fresh module. -/
def eT : MobjectE Nat :=
  { mobjectId := 7, styleRef := 0, shapes := [], fillGeom := 0,
    fillMat := { color := 0, opacity := 1 }, strokeGeom := 1,
    strokeMat := { color := 0xffffff, opacity := 1, lineWidth := 4 / 100 } }

/-- Heap after a style-only update of `eT` setting `fillColor := 5`. -/
def c6W2 : World Nat :=
  { styles := [{ DEFAULT_STYLE with fillColor := 5 }], buffers := [bufT, bufT] }

/-- Entity after a style-only update of `eT` setting `fillColor := 5`. -/
def c6E2 : MobjectE Nat := { eT with fillMat := { color := 5, opacity := 1 } }

/-- Heap after a redraw update of `eT` in `wF0` with incoming
`fillOpacity := 0`: fill buffer untouched, stroke buffer disposed and
reallocated. -/
def c5W2 : World Nat :=
  { styles := [{ DEFAULT_STYLE with fillOpacity := 0 }],
    buffers := [bufT, { content := [], version := 0, disposed := true }, bufT] }

/-- Entity after the redraw update of the `c5W2` scenario. -/
def c5E2 : MobjectE Nat :=
  { mobjectId := 7, styleRef := 0, shapes := [], fillGeom := 0,
    fillMat := { color := 0, opacity := 0 }, strokeGeom := 2,
    strokeMat := { color := 0xffffff, opacity := 1, lineWidth := 4 / 100 } }

/-- Heap after a redraw update of `eT` in `wZ` with an empty style argument:
both geometry skips miss (the raw incoming fields are absent), so the fill
buffer is refreshed in place and the stroke buffer is disposed and
reallocated. -/
def c10W2 : World Nat :=
  { styles := [{ DEFAULT_STYLE with fillOpacity := 0, strokeOpacity := 0 }],
    buffers := [{ content := [], version := 1, disposed := false },
      { content := [], version := 0, disposed := true }, bufT] }

/-- Entity after the redraw update of the `c10W2` scenario. -/
def c10E2 : MobjectE Nat :=
  { mobjectId := 7, styleRef := 0, shapes := [], fillGeom := 0,
    fillMat := { color := 0, opacity := 0 }, strokeGeom := 2,
    strokeMat := { color := 0xffffff, opacity := 0, lineWidth := 4 / 100 } }

/-- Heap after constructing entity 1 with an explicit `fillOpacity := 0`:
the shared `DEFAULT_STYLE` object itself now holds fill opacity zero. -/
def c3W1 : World Nat :=
  { styles := [{ DEFAULT_STYLE with fillOpacity := 0 }], buffers := [bufT, bufT] }

/-- Entity 1 of the C3 scenario. -/
def c3E1 : MobjectE Nat :=
  { mobjectId := 1, styleRef := 0, shapes := [], fillGeom := 0,
    fillMat := { color := 0, opacity := 0 }, strokeGeom := 1,
    strokeMat := { color := 0xffffff, opacity := 1, lineWidth := 4 / 100 } }

/-- Heap after additionally constructing entity 2 with an empty style
argument. -/
def c3W2 : World Nat :=
  { styles := [{ DEFAULT_STYLE with fillOpacity := 0 }],
    buffers := [bufT, bufT, bufT, bufT] }

/-- Entity 2 of the C3 scenario: its style omits `fillOpacity`, yet it reads
opacity `0` from the shared object mutated by entity 1's construction. -/
def c3E2 : MobjectE Nat :=
  { mobjectId := 2, styleRef := 0, shapes := [], fillGeom := 2,
    fillMat := { color := 0, opacity := 0 }, strokeGeom := 3,
    strokeMat := { color := 0xffffff, opacity := 1, lineWidth := 4 / 100 } }

/-! ## Theorems -/

/-- The path-building loop succeeds on any suffix whose length is a multiple
of four and returns paths whose total segment count extends the accumulated
count by one segment per four remaining points. -/
theorem buildLoop_count (ac : P → P → Bool) :
    ∀ (rest : List P) (path : Option (BPath P)) (move : Bool) (paths : List (BPath P)),
      rest.length % 4 = 0 → (move = false → path.isSome = true) → (rest = [] → move = true) →
      ∃ out, buildLoop ac rest path move paths = Except.ok out ∧
        totalSegs out = totalSegs paths + pendingSegs path move + rest.length / 4
  | [], path, move, paths, _, _, hmv => by
      have hm := hmv rfl
      subst hm
      exact ⟨paths, rfl, by simp [pendingSegs]⟩
  | a :: b :: c :: d :: [], path, move, paths, _, hp, _ => by
      cases move with
      | true =>
          refine ⟨paths ++ [(⟨a, [(b, c, d)]⟩ : BPath P)], rfl, ?_⟩
          simp [totalSegs, pendingSegs]
      | false =>
          have hs := hp rfl
          cases path with
          | none => simp at hs
          | some p =>
              refine ⟨paths ++ [(⟨p.start, p.curves ++ [(b, c, d)]⟩ : BPath P)], rfl, ?_⟩
              simp [totalSegs, pendingSegs]
              omega
  | a :: b :: c :: d :: pn :: rest3, path, move, paths, h4, hp, _ => by
      have h4' : (pn :: rest3).length % 4 = 0 := by
        simp only [List.length_cons] at h4 ⊢
        omega
      cases move with
      | true =>
          obtain ⟨out, hout, hcnt⟩ := buildLoop_count ac (pn :: rest3)
            (some ⟨a, [(b, c, d)]⟩) (!(ac d pn))
            (if (!(ac d pn)) = true then paths ++ [⟨a, [(b, c, d)]⟩] else paths)
            h4' (by simp) (by simp)
          refine ⟨out, hout, ?_⟩
          simp only [List.length_cons] at h4' ⊢
          cases hac : ac d pn <;>
            simp [hac, totalSegs, pendingSegs] at hcnt ⊢ <;> omega
      | false =>
          have hs := hp rfl
          cases path with
          | none => simp at hs
          | some p =>
              obtain ⟨out, hout, hcnt⟩ := buildLoop_count ac (pn :: rest3)
                (some ⟨p.start, p.curves ++ [(b, c, d)]⟩) (!(ac d pn))
                (if (!(ac d pn)) = true
                  then paths ++ [⟨p.start, p.curves ++ [(b, c, d)]⟩] else paths)
                h4' (by simp) (by simp)
              refine ⟨out, hout, ?_⟩
              simp only [List.length_cons] at h4' ⊢
              cases hac : ac d pn <;>
                simp [hac, totalSegs, pendingSegs] at hcnt ⊢ <;> omega
  | [a], _, _, _, h4, _, _ => by simp at h4
  | [a, b], _, _, _, h4, _, _ => by simp at h4
  | [a, b, c], _, _, _, h4, _, _ => by simp at h4

/-- On any suffix whose length is NOT a multiple of four, the path-building
loop always reaches the out-of-bounds read, whatever its state. -/
theorem buildLoop_error (ac : P → P → Bool) :
    ∀ (rest : List P) (path : Option (BPath P)) (move : Bool) (paths : List (BPath P)),
      rest.length % 4 ≠ 0 →
      buildLoop ac rest path move paths = Except.error ()
  | [], _, _, _, h4 => by simp at h4
  | a :: b :: c :: d :: [], _, _, _, h4 => by simp at h4
  | a :: b :: c :: d :: pn :: rest3, path, move, paths, h4 => by
      have h4' : (pn :: rest3).length % 4 ≠ 0 := by
        simp only [List.length_cons] at h4 ⊢
        omega
      cases move with
      | true => exact buildLoop_error ac (pn :: rest3) _ _ _ h4'
      | false =>
          cases path with
          | none => rfl
          | some p => exact buildLoop_error ac (pn :: rest3) _ _ _ h4'
  | [a], _, _, _, _ => rfl
  | [a, b], _, _, _, _ => rfl
  | [a, b, c], _, _, _, _ => rfl

/-- The number of four-point chunks of a flat point list. -/
theorem segsOf_length : ∀ (l : List P), (segsOf l).length = l.length / 4
  | _ :: _ :: _ :: _ :: rest2 => by
      have ih := segsOf_length rest2
      simp only [segsOf, List.length_cons, ih]
      omega
  | [] => by simp [segsOf]
  | [_] => by simp [segsOf]
  | [_, _] => by simp [segsOf]
  | [_, _, _] => by simp [segsOf]

/-- When every chunk boundary in the remaining points is `allClose`, the
building loop never closes the in-progress path early: it returns the
accumulated paths followed by the single path extended with all remaining
segments. -/
theorem buildLoop_closed (ac : P → P → Bool) :
    ∀ (rest : List P) (p : BPath P) (paths : List (BPath P)),
      rest.length % 4 = 0 → rest ≠ [] → chunkClose ac rest = true →
      buildLoop ac rest (some p) false paths =
        Except.ok (paths ++ [⟨p.start, p.curves ++ segsOf rest⟩])
  | [], _, _, _, hne, _ => absurd rfl hne
  | a :: b :: c :: d :: [], p, paths, _, _, _ => by
      simp [buildLoop, segsOf]
  | a :: b :: c :: d :: pn :: rest3, p, paths, h4, _, hcl => by
      have h4' : (pn :: rest3).length % 4 = 0 := by
        simp only [List.length_cons] at h4 ⊢
        omega
      simp only [chunkClose, Bool.and_eq_true] at hcl
      have ih := buildLoop_closed ac (pn :: rest3)
        ⟨p.start, p.curves ++ [(b, c, d)]⟩ paths h4' (by simp) hcl.2
      calc buildLoop ac (a :: b :: c :: d :: pn :: rest3) (some p) false paths
      _ = buildLoop ac (pn :: rest3) (some ⟨p.start, p.curves ++ [(b, c, d)]⟩)
            (!(ac d pn))
            (if (!(ac d pn)) = true
              then paths ++ [(⟨p.start, p.curves ++ [(b, c, d)]⟩ : BPath P)] else paths) := rfl
      _ = Except.ok (paths ++ [⟨p.start, p.curves ++ segsOf (a :: b :: c :: d :: pn :: rest3)⟩]) := by
            rw [hcl.1]
            simpa [segsOf] using ih
  | [a], _, _, h4, _, _ => by simp at h4
  | [a, b], _, _, h4, _, _ => by simp at h4
  | [a, b, c], _, _, h4, _, _ => by simp at h4

/-- Claim C7: for every point sequence whose length is a multiple of four,
path building succeeds and the total segment count over all returned paths is
`points.length / 4`; in particular the empty sequence yields an empty path
list and a four-point sequence yields exactly one path with one segment. -/
theorem buildPaths_segment_count (ac : P → P → Bool) (points : List P)
    (h4 : points.length % 4 = 0) :
    ∃ out, buildPaths ac points = Except.ok out ∧
      totalSegs out = points.length / 4 ∧
      (points = [] → out = []) ∧
      (points.length = 4 → ∃ q, out = [q] ∧ q.curves.length = 1) := by
  obtain ⟨out, hout, hcnt⟩ :=
    buildLoop_count ac points none true [] h4 (by simp) (by simp)
  refine ⟨out, hout, ?_, ?_, ?_⟩
  · simpa [totalSegs, pendingSegs] using hcnt
  · rintro rfl
    have : Except.ok (ε := Unit) ([] : List (BPath P)) = Except.ok out := hout
    simpa using this.symm
  · intro hlen
    match points, hlen with
    | [a, b, c, d], _ =>
      have : Except.ok (ε := Unit) [(⟨a, [(b, c, d)]⟩ : BPath P)] = Except.ok out := hout
      exact ⟨⟨a, [(b, c, d)]⟩, by simpa using this.symm, rfl⟩

/-- Witness for C7 at the four-point input `[0, 1, 2, 3]`. -/
theorem buildPaths_segment_count_witness :
    ([0, 1, 2, 3] : List Nat).length % 4 = 0 ∧
    ∃ out, buildPaths acT [0, 1, 2, 3] = Except.ok out ∧
      totalSegs out = ([0, 1, 2, 3] : List Nat).length / 4 ∧
      (([0, 1, 2, 3] : List Nat) = [] → out = []) ∧
      (([0, 1, 2, 3] : List Nat).length = 4 → ∃ q, out = [q] ∧ q.curves.length = 1) :=
  ⟨by decide, buildPaths_segment_count acT [0, 1, 2, 3] (by decide)⟩

/-- Claim C2, actual code behavior: for every point sequence whose length is
not a multiple of four, `buildPaths` runs into the out-of-bounds index read of
the final partial chunk (`points[curveStartIndex + k]` is `undefined`, so JS
raises a plain TypeError, embedded as `Except.error ()`).  No structured
`InvalidGeometryInput` condition exists anywhere in the source. -/
theorem buildPaths_nonmultiple_out_of_bounds (ac : P → P → Bool) (points : List P)
    (h : points.length % 4 ≠ 0) : buildPaths ac points = Except.error () :=
  buildLoop_error ac points none true [] h

/-- Witness for C2 at the one-point input `[0]`. -/
theorem buildPaths_nonmultiple_out_of_bounds_witness :
    ([0] : List Nat).length % 4 ≠ 0 ∧ buildPaths acT [0] = Except.error () :=
  ⟨by decide, buildPaths_nonmultiple_out_of_bounds acT [0] (by decide)⟩

/-- Claim C9: a nonempty point sequence of valid length in which the end point
of every segment is `allClose` to the start point of the next segment builds
exactly one path carrying all the segments — no spurious split — regardless of
whether the last end point coincides with the first start point. -/
theorem buildPaths_closed_contour (ac : P → P → Bool) (points : List P)
    (h4 : points.length % 4 = 0) (hne : points ≠ [])
    (hclose : chunkClose ac points = true) :
    ∃ q, buildPaths ac points = Except.ok [q] ∧
      points.head? = some q.start ∧
      q.curves = segsOf points ∧
      q.curves.length = points.length / 4 := by
  match points, hne with
  | [a], _ => simp at h4
  | [a, b], _ => simp at h4
  | [a, b, c], _ => simp at h4
  | [a, b, c, d], _ =>
    exact ⟨⟨a, [(b, c, d)]⟩, rfl, rfl, by simp [segsOf], by simp⟩
  | a :: b :: c :: d :: pn :: rest3, _ =>
    have h4' : (pn :: rest3).length % 4 = 0 := by
      simp only [List.length_cons] at h4 ⊢
      omega
    simp only [chunkClose, Bool.and_eq_true] at hclose
    have hrun := buildLoop_closed ac (pn :: rest3) ⟨a, [(b, c, d)]⟩ [] h4' (by simp) hclose.2
    refine ⟨⟨a, (b, c, d) :: segsOf (pn :: rest3)⟩, ?_, rfl, by simp [segsOf], ?_⟩
    · calc buildPaths ac (a :: b :: c :: d :: pn :: rest3)
      _ = buildLoop ac (pn :: rest3) (some ⟨a, [(b, c, d)]⟩) (!(ac d pn))
            (if (!(ac d pn)) = true then [(⟨a, [(b, c, d)]⟩ : BPath P)] else []) := rfl
      _ = Except.ok [⟨a, (b, c, d) :: segsOf (pn :: rest3)⟩] := by
            rw [hclose.1]
            simpa using hrun
    · have := segsOf_length (P := P) (a :: b :: c :: d :: pn :: rest3)
      simp only [segsOf, List.length_cons] at this ⊢
      omega

/-- Witness for C9 at a closed two-segment square contour (points encoded as
naturals, `allClose` as equality). -/
theorem buildPaths_closed_contour_witness :
    ([0, 1, 2, 5, 5, 6, 7, 0] : List Nat).length % 4 = 0 ∧
    ([0, 1, 2, 5, 5, 6, 7, 0] : List Nat) ≠ [] ∧
    chunkClose acE [0, 1, 2, 5, 5, 6, 7, 0] = true ∧
    ∃ q, buildPaths acE [0, 1, 2, 5, 5, 6, 7, 0] = Except.ok [q] ∧
      ([0, 1, 2, 5, 5, 6, 7, 0] : List Nat).head? = some q.start ∧
      q.curves = segsOf [0, 1, 2, 5, 5, 6, 7, 0] ∧
      q.curves.length = ([0, 1, 2, 5, 5, 6, 7, 0] : List Nat).length / 4 :=
  ⟨by decide, by decide, by decide,
   buildPaths_closed_contour acE [0, 1, 2, 5, 5, 6, 7, 0] (by decide) (by decide) (by decide)⟩

/-- Claim C8: for any two paths where the containment test puts `B` inside
`A` and not `A` inside `B`, classification — in either input order — returns
exactly one shape whose outer curves are those of `A` and whose single hole is
`B`. -/
theorem classify_two_paths (ins : Q → Q → Bool) (A B : Q)
    (hAB : ins A B = true) (hBA : ins B A = false) :
    classify ins [A, B] = [⟨A, [B]⟩] ∧ classify ins [B, A] = [⟨A, [B]⟩] := by
  constructor <;>
    simp [classify, outerLoop, innerLoop, trailingLoop, List.range_succ, hAB, hBA]

/-- Witness for C8 with paths labelled `5` (outer) and `7` (hole). -/
theorem classify_two_paths_witness :
    insP 5 7 = true ∧ insP 7 5 = false ∧
    classify insP [5, 7] = [⟨5, [7]⟩] ∧ classify insP [7, 5] = [⟨5, [7]⟩] :=
  ⟨by decide, by decide,
   (classify_two_paths insP 5 7 (by decide) (by decide)).1,
   (classify_two_paths insP 5 7 (by decide) (by decide)).2⟩

/-- Claim C1, actual code behavior at a three-path input: with a containment
test making path `0` contain exactly path `1`, and path `2` disjoint from
both, the classifier returns only the shape built from paths `0` and `1`.
Path `2` is consumed by no shape at all — the trailing loop's condition
`i < paths.length && !decided_path_indices.has(i)` stops at the first decided
index instead of skipping it, so the still-undecided path `2` is dropped
rather than becoming a trivial shape. -/
theorem classify_drops_disjoint_path :
    classify insD [0, 1, 2] = [⟨0, [1]⟩] ∧
    ∀ s ∈ classify insD [0, 1, 2], s.outer ≠ 2 ∧ (2 : Nat) ∉ s.holes := by
  decide

/-! ### Heap projection lemmas and inversion helpers -/
theorem ok_pair_inj {ε α β : Type _} {x : α × β} {a : α} {b : β}
    (h : (Except.ok x : Except ε (α × β)) = Except.ok (a, b)) : a = x.1 ∧ b = x.2 := by
  injection h with h'
  subst h'
  exact ⟨rfl, rfl⟩

@[simp] theorem styles_writeStyle (w : World P) (r : Nat) (s : Style) :
    (writeStyle w r s).styles = w.styles.set r s := rfl

@[simp] theorem buffers_writeStyle (w : World P) (r : Nat) (s : Style) :
    (writeStyle w r s).buffers = w.buffers := rfl

@[simp] theorem styles_writeBuffer (w : World P) (r : Nat) (b) :
    (writeBuffer w r b).styles = w.styles := rfl

@[simp] theorem buffers_writeBuffer (w : World P) (r : Nat) (b) :
    (writeBuffer w r b).buffers = w.buffers.set r b := rfl

@[simp] theorem styles_updateFillGeometry (w : World P) (e : MobjectE P) :
    (updateFillGeometry w e).styles = w.styles := rfl

@[simp] theorem buffers_updateFillGeometry (w : World P) (e : MobjectE P) :
    (updateFillGeometry w e).buffers =
      w.buffers.set e.fillGeom
        { content := e.shapes, version := (readBuffer w e.fillGeom).version + 1,
          disposed := (readBuffer w e.fillGeom).disposed } := rfl

@[simp] theorem styles_disposeBuffer (w : World P) (r : Nat) :
    (disposeBuffer w r).styles = w.styles := rfl

@[simp] theorem buffers_disposeBuffer (w : World P) (r : Nat) :
    (disposeBuffer w r).buffers =
      w.buffers.set r
        { content := (readBuffer w r).content, version := (readBuffer w r).version,
          disposed := true } := rfl

@[simp] theorem styles_allocBuffer (w : World P) (c) :
    (allocBuffer w c).1.styles = w.styles := rfl

@[simp] theorem buffers_allocBuffer (w : World P) (c) :
    (allocBuffer w c).1.buffers =
      w.buffers ++ [{ content := c, version := 0, disposed := false }] := rfl

@[simp] theorem snd_allocBuffer (w : World P) (c) :
    (allocBuffer w c).2 = w.buffers.length := rfl

@[simp] theorem readStyle_writeBuffer (w : World P) (r b j) :
    readStyle (writeBuffer w r b) j = readStyle w j := rfl

@[simp] theorem readStyle_updateFillGeometry (w : World P) (e : MobjectE P) (j) :
    readStyle (updateFillGeometry w e) j = readStyle w j := rfl

@[simp] theorem readStyle_disposeBuffer (w : World P) (r j) :
    readStyle (disposeBuffer w r) j = readStyle w j := rfl

@[simp] theorem readStyle_allocBuffer (w : World P) (c j) :
    readStyle (allocBuffer w c).1 j = readStyle w j := rfl

@[simp] theorem readBuffer_writeStyle (w : World P) (r : Nat) (s : Style) (j) :
    readBuffer (writeStyle w r s) j = readBuffer w j := rfl

@[simp] theorem mergeAndRefresh_fst (w : World P) (e : MobjectE P) (arg : StyleArg) :
    (mergeAndRefresh w e arg).1 =
      writeStyle w e.styleRef (assignStyle (readStyle w e.styleRef) arg) := rfl

@[simp] theorem mergeAndRefresh_styleRef (w : World P) (e : MobjectE P) (arg : StyleArg) :
    (mergeAndRefresh w e arg).2.styleRef = e.styleRef := rfl

@[simp] theorem mergeAndRefresh_shapes (w : World P) (e : MobjectE P) (arg : StyleArg) :
    (mergeAndRefresh w e arg).2.shapes = e.shapes := rfl

@[simp] theorem mergeAndRefresh_fillGeom (w : World P) (e : MobjectE P) (arg : StyleArg) :
    (mergeAndRefresh w e arg).2.fillGeom = e.fillGeom := rfl

@[simp] theorem mergeAndRefresh_strokeGeom (w : World P) (e : MobjectE P) (arg : StyleArg) :
    (mergeAndRefresh w e arg).2.strokeGeom = e.strokeGeom := rfl

@[simp] theorem mergeAndRefresh_mobjectId (w : World P) (e : MobjectE P) (arg : StyleArg) :
    (mergeAndRefresh w e arg).2.mobjectId = e.mobjectId := rfl

theorem mergeAndRefresh_fillMat (w : World P) (e : MobjectE P) (arg : StyleArg) :
    (mergeAndRefresh w e arg).2.fillMat =
      computeFillMaterial (readStyle (mergeAndRefresh w e arg).1 e.styleRef) := rfl

theorem mergeAndRefresh_strokeMat (w : World P) (e : MobjectE P) (arg : StyleArg) :
    (mergeAndRefresh w e arg).2.strokeMat =
      computeStrokeMaterial (readStyle (mergeAndRefresh w e arg).1 e.styleRef) := rfl

theorem construct_ok (ac : P → P → Bool) (ins : BPath P → BPath P → Bool)
    (w : World P) (mid : Nat) (points : List P) (arg : StyleArg)
    (w' : World P) (e : MobjectE P)
    (hc : construct ac ins w mid points arg = Except.ok (w', e)) :
    e.styleRef = defaultStyleRef ∧
    w'.styles = w.styles.set defaultStyleRef
      (assignStyle (readStyle w defaultStyleRef) arg) := by
  cases hsh : computeShapes ac ins points with
  | error u => simp [construct, hsh] at hc
  | ok shs =>
      rw [construct, hsh] at hc
      obtain ⟨hw', he⟩ := ok_pair_inj hc
      subst hw'
      subst he
      exact ⟨rfl, rfl⟩

theorem update_styles (ac : P → P → Bool) (ins : BPath P → BPath P → Bool)
    (w : World P) (e : MobjectE P) (pts : List P) (arg : StyleArg) (nr : Bool)
    (w2 : World P) (e1 : MobjectE P)
    (hupd : update ac ins w e pts arg nr = Except.ok (w2, e1)) :
    w2.styles = w.styles.set e.styleRef (assignStyle (readStyle w e.styleRef) arg) ∧
    e1.styleRef = e.styleRef := by
  cases nr with
  | false =>
      rw [update] at hupd
      simp only [if_neg (by simp : ¬ (false = true))] at hupd
      obtain ⟨hw2, he1⟩ := ok_pair_inj hupd
      subst hw2
      subst he1
      exact ⟨rfl, rfl⟩
  | true =>
      cases hsh : computeShapes ac ins pts with
      | error u => simp [update, redrawGeometry, hsh] at hupd
      | ok shs =>
          by_cases hstr : (readStyle w e.styleRef).strokeOpacity = 0 ∧ arg.strokeOpacity = some 0 <;>
          by_cases hf : (readStyle w e.styleRef).fillOpacity = 0 ∧ arg.fillOpacity = some 0 <;>
            simp only [update, redrawGeometry, hsh, hstr, hf, if_true, if_false,
              iff_true, iff_false, if_pos, if_neg, not_false_iff, and_self,
              eq_self_iff_true, reduceIte] at hupd <;>
            (obtain ⟨hw2, he1⟩ := ok_pair_inj hupd
             subst hw2
             subst he1
             exact ⟨by simp, by simp⟩)

/-- Reading a style address depends only on the style heap. -/
theorem readStyle_congr (w1 w2 : World P) (h : w1.styles = w2.styles) (r : Nat) :
    readStyle w1 r = readStyle w2 r := by
  simp [readStyle, h]

/-- Reading back an in-range style address just written. -/
theorem readStyle_set_self (w : World P) (r : Nat) (s : Style)
    (h : r < w.styles.length) :
    readStyle (writeStyle w r s) r = s := by
  simp [readStyle, writeStyle, List.getElem?_set_eq_of_lt s h]

theorem readBuffer_alloc_lt (w : World P) (c) (j : Nat) (h : j < w.buffers.length) :
    readBuffer (allocBuffer w c).1 j = readBuffer w j := by
  simp [readBuffer, allocBuffer, List.getElem?_append_left h]

theorem readBuffer_alloc_self (w : World P) (c) :
    readBuffer (allocBuffer w c).1 w.buffers.length =
      { content := c, version := 0, disposed := false } := by
  simp [readBuffer, allocBuffer]

theorem readBuffer_dispose_ne (w : World P) (r j : Nat) (h : r ≠ j) :
    readBuffer (disposeBuffer w r) j = readBuffer w j := by
  simp [readBuffer, disposeBuffer, writeBuffer, List.getElem?_set_ne h]

theorem readBuffer_dispose_self (w : World P) (r : Nat) (h : r < w.buffers.length) :
    readBuffer (disposeBuffer w r) r =
      { content := (readBuffer w r).content, version := (readBuffer w r).version,
        disposed := true } := by
  simp [readBuffer, disposeBuffer, writeBuffer, List.getElem?_set_eq_of_lt _ h]

theorem readBuffer_updateFill_ne (w : World P) (e : MobjectE P) (j : Nat)
    (h : e.fillGeom ≠ j) :
    readBuffer (updateFillGeometry w e) j = readBuffer w j := by
  simp [readBuffer, updateFillGeometry, writeBuffer, List.getElem?_set_ne h]

theorem readBuffer_updateFill_self (w : World P) (e : MobjectE P)
    (h : e.fillGeom < w.buffers.length) :
    readBuffer (updateFillGeometry w e) e.fillGeom =
      { content := e.shapes, version := (readBuffer w e.fillGeom).version + 1,
        disposed := (readBuffer w e.fillGeom).disposed } := by
  simp [readBuffer, updateFillGeometry, writeBuffer, List.getElem?_set_eq_of_lt _ h]

/-- Claim C6: `update` with `needsRedraw = false` performs no geometry
recomputation — the buffer heap is untouched, the entity keeps its geometry
references (hence identity and content), its shapes and id — and only the two
materials (refreshed from the merged style) and the shared style object
change. -/
theorem update_no_redraw (ac : P → P → Bool) (ins : BPath P → BPath P → Bool)
    (w : World P) (e : MobjectE P) (points : List P) (arg : StyleArg)
    (w2 : World P) (e1 : MobjectE P)
    (hr : e.styleRef < w.styles.length)
    (hupd : update ac ins w e points arg false = Except.ok (w2, e1)) :
    w2.buffers = w.buffers ∧
    e1.fillGeom = e.fillGeom ∧
    e1.strokeGeom = e.strokeGeom ∧
    e1.shapes = e.shapes ∧
    e1.mobjectId = e.mobjectId ∧
    e1.styleRef = e.styleRef ∧
    readBuffer w2 e1.fillGeom = readBuffer w e.fillGeom ∧
    readBuffer w2 e1.strokeGeom = readBuffer w e.strokeGeom ∧
    w2.styles = w.styles.set e.styleRef (assignStyle (readStyle w e.styleRef) arg) ∧
    e1.fillMat = computeFillMaterial (assignStyle (readStyle w e.styleRef) arg) ∧
    e1.strokeMat = computeStrokeMaterial (assignStyle (readStyle w e.styleRef) arg) := by
  rw [update] at hupd
  simp only [if_neg (by simp : ¬ (false = true))] at hupd
  obtain ⟨hw2, he1⟩ := ok_pair_inj hupd
  subst hw2
  subst he1
  refine ⟨by simp, by simp, by simp, by simp, by simp, by simp, by simp, by simp, by simp, ?_, ?_⟩
  · rw [mergeAndRefresh_fillMat, mergeAndRefresh_fst, readStyle_set_self w e.styleRef _ hr]
  · rw [mergeAndRefresh_strokeMat, mergeAndRefresh_fst, readStyle_set_self w e.styleRef _ hr]

/-- Claim C4: every constructed entity's `style` field holds the address of
the single module-level `DEFAULT_STYLE` object, so any two entities alias one
style object; an `update` applied through one entity merges into that shared
object in place, and any other entity referencing it reads the merged values
at its next material refresh. -/
theorem mobject_style_alias (ac : P → P → Bool) (ins : BPath P → BPath P → Bool)
    (w : World P) (mid : Nat) (points : List P) (arg : StyleArg)
    (w' : World P) (e : MobjectE P) (e2 : MobjectE P)
    (pts2 : List P) (arg2 : StyleArg) (nr : Bool) (w2 : World P) (e1 : MobjectE P)
    (hw : defaultStyleRef < w.styles.length)
    (hc : construct ac ins w mid points arg = Except.ok (w', e))
    (h2 : e2.styleRef = defaultStyleRef)
    (hupd : update ac ins w' e pts2 arg2 nr = Except.ok (w2, e1)) :
    e.styleRef = defaultStyleRef ∧
    readStyle w2 e2.styleRef = assignStyle (readStyle w' e.styleRef) arg2 := by
  obtain ⟨hsr, hst⟩ := construct_ok ac ins w mid points arg w' e hc
  obtain ⟨hst2, _⟩ := update_styles ac ins w' e pts2 arg2 nr w2 e1 hupd
  have hlen : e.styleRef < w'.styles.length := by
    rw [hsr, hst]
    simpa using hw
  refine ⟨hsr, ?_⟩
  have hcongr : readStyle w2 e2.styleRef =
      readStyle (writeStyle w' e.styleRef (assignStyle (readStyle w' e.styleRef) arg2)) e2.styleRef :=
    readStyle_congr _ _ (by simpa using hst2) _
  rw [hcongr, h2, ← hsr, readStyle_set_self w' e.styleRef _ hlen]

/-- Claim C3, amended: `construct` merges the supplied fields over the
CURRENT contents of the shared module-level style object (mutating it in
place); omitted fields take whatever values that object currently holds,
which equal the documented defaults only in a fresh module where no earlier
construction or update has overridden them. -/
theorem construct_merges_over_current_shared (ac : P → P → Bool)
    (ins : BPath P → BPath P → Bool) (w : World P) (mid : Nat) (points : List P)
    (arg : StyleArg) (w' : World P) (e : MobjectE P)
    (hw : defaultStyleRef < w.styles.length)
    (hc : construct ac ins w mid points arg = Except.ok (w', e)) :
    readStyle w' e.styleRef = assignStyle (readStyle w defaultStyleRef) arg ∧
    (w = initWorld P → readStyle w' e.styleRef = assignStyle DEFAULT_STYLE arg) := by
  obtain ⟨hsr, hst⟩ := construct_ok ac ins w mid points arg w' e hc
  have h1 : readStyle w' e.styleRef = assignStyle (readStyle w defaultStyleRef) arg := by
    have hcongr : readStyle w' e.styleRef =
        readStyle (writeStyle w defaultStyleRef
          (assignStyle (readStyle w defaultStyleRef) arg)) e.styleRef :=
      readStyle_congr _ _ (by simpa using hst) _
    rw [hcongr, hsr, readStyle_set_self w defaultStyleRef _ hw]
  refine ⟨h1, fun hinit => ?_⟩
  rw [h1, hinit]
  rfl

/-- Claim C5: a redraw update whose previous `fillOpacity` and raw incoming
`fillOpacity` are both exactly `0` leaves the fill geometry buffer untouched
(same address, same content and version), while the stroke geometry is still
disposed and rebuilt whenever the previous or the incoming stroke opacity is
nonzero. -/
theorem update_invisible_fill_skip (ac : P → P → Bool) (ins : BPath P → BPath P → Bool)
    (w : World P) (e : MobjectE P) (pts : List P) (arg : StyleArg)
    (shs : List (CShape (BPath P))) (w2 : World P) (e1 : MobjectE P)
    (hsh : computeShapes ac ins pts = Except.ok shs)
    (hf0 : (readStyle w e.styleRef).fillOpacity = 0)
    (ha0 : arg.fillOpacity = some 0)
    (hfl : e.fillGeom < w.buffers.length)
    (hsl : e.strokeGeom < w.buffers.length)
    (hfs : e.fillGeom ≠ e.strokeGeom)
    (hupd : update ac ins w e pts arg true = Except.ok (w2, e1)) :
    e1.fillGeom = e.fillGeom ∧
    readBuffer w2 e1.fillGeom = readBuffer w e.fillGeom ∧
    ((readStyle w e.styleRef).strokeOpacity ≠ 0 ∨ arg.strokeOpacity ≠ some 0 →
      e1.strokeGeom ≠ e.strokeGeom ∧
      (readBuffer w2 e.strokeGeom).disposed = true ∧
      readBuffer w2 e1.strokeGeom = { content := shs, version := 0, disposed := false }) := by
  have hfill : (readStyle w e.styleRef).fillOpacity = 0 ∧ arg.fillOpacity = some 0 :=
    ⟨hf0, ha0⟩
  by_cases hstr : (readStyle w e.styleRef).strokeOpacity = 0 ∧ arg.strokeOpacity = some 0
  · simp only [update, redrawGeometry, hsh, hfill, hstr, if_true, if_false, iff_true,
      iff_false, and_self, eq_self_iff_true, reduceIte] at hupd
    obtain ⟨hw2, he1⟩ := ok_pair_inj hupd
    subst hw2
    subst he1
    refine ⟨by simp, by simp, fun hor => ?_⟩
    rcases hor with hne | hne
    · exact absurd hstr.1 hne
    · exact absurd hstr.2 hne
  · simp only [update, redrawGeometry, hsh, hfill, hstr, if_true, if_false, iff_true,
      iff_false, and_self, eq_self_iff_true, reduceIte] at hupd
    obtain ⟨hw2, he1⟩ := ok_pair_inj hupd
    subst hw2
    subst he1
    have hlenD : (disposeBuffer w e.strokeGeom).buffers.length = w.buffers.length := by
      simp
    refine ⟨by simp, ?_, fun _ => ⟨?_, ?_, ?_⟩⟩
    · simp only [mergeAndRefresh_fst, mergeAndRefresh_fillGeom, readBuffer_writeStyle]
      show readBuffer (allocBuffer (disposeBuffer w e.strokeGeom) shs).1 e.fillGeom
          = readBuffer w e.fillGeom
      rw [readBuffer_alloc_lt _ _ _ (by rw [hlenD]; exact hfl),
        readBuffer_dispose_ne _ _ _ (Ne.symm hfs)]
    · simp only [mergeAndRefresh_strokeGeom]
      show (disposeBuffer w e.strokeGeom).buffers.length ≠ e.strokeGeom
      rw [hlenD]
      omega
    · simp only [mergeAndRefresh_fst, readBuffer_writeStyle]
      show (readBuffer (allocBuffer (disposeBuffer w e.strokeGeom) shs).1 e.strokeGeom).disposed = true
      rw [readBuffer_alloc_lt _ _ _ (by rw [hlenD]; exact hsl),
        readBuffer_dispose_self _ _ hsl]
    · simp only [mergeAndRefresh_fst, mergeAndRefresh_strokeGeom, readBuffer_writeStyle]
      show readBuffer (allocBuffer (disposeBuffer w e.strokeGeom) shs).1
          (disposeBuffer w e.strokeGeom).buffers.length
          = { content := shs, version := 0, disposed := false }
      exact readBuffer_alloc_self _ _

/-- Claim C10: the invisible-to-invisible skips test the raw incoming style
argument, not the merged effective style.  With the current fill and stroke
opacities `0` and an incoming style that omits both opacity fields (so the
merged effective opacities stay `0`), the fill buffer is refreshed anyway
(version bumped, content replaced) and the stroke buffer is still disposed
and reallocated. -/
theorem update_omitted_opacity_rebuilds (ac : P → P → Bool) (ins : BPath P → BPath P → Bool)
    (w : World P) (e : MobjectE P) (pts : List P) (arg : StyleArg)
    (shs : List (CShape (BPath P))) (w2 : World P) (e1 : MobjectE P)
    (hsh : computeShapes ac ins pts = Except.ok shs)
    (hf0 : (readStyle w e.styleRef).fillOpacity = 0)
    (hfa : arg.fillOpacity = none)
    (hs0 : (readStyle w e.styleRef).strokeOpacity = 0)
    (hsa : arg.strokeOpacity = none)
    (hr : e.styleRef < w.styles.length)
    (hfl : e.fillGeom < w.buffers.length)
    (hsl : e.strokeGeom < w.buffers.length)
    (hfs : e.fillGeom ≠ e.strokeGeom)
    (hupd : update ac ins w e pts arg true = Except.ok (w2, e1)) :
    e1.fillGeom = e.fillGeom ∧
    readBuffer w2 e1.fillGeom =
      { content := shs, version := (readBuffer w e.fillGeom).version + 1,
        disposed := (readBuffer w e.fillGeom).disposed } ∧
    (readStyle w2 e1.styleRef).fillOpacity = 0 ∧
    e1.strokeGeom ≠ e.strokeGeom ∧
    (readBuffer w2 e.strokeGeom).disposed = true ∧
    readBuffer w2 e1.strokeGeom = { content := shs, version := 0, disposed := false } ∧
    (readStyle w2 e1.styleRef).strokeOpacity = 0 := by
  have hfc : ¬((readStyle w e.styleRef).fillOpacity = 0 ∧ arg.fillOpacity = some 0) := by
    simp [hfa]
  have hsc : ¬((readStyle w e.styleRef).strokeOpacity = 0 ∧ arg.strokeOpacity = some 0) := by
    simp [hsa]
  simp only [update, redrawGeometry, hsh, if_true, if_false, iff_true, iff_false,
    and_self, eq_self_iff_true, reduceIte, if_neg hfc, if_neg hsc] at hupd
  obtain ⟨hw2, he1⟩ := ok_pair_inj hupd
  subst hw2
  subst he1
  have hlenF : (updateFillGeometry w { e with shapes := shs }).buffers.length
      = w.buffers.length := by simp
  have hlenD : (disposeBuffer (updateFillGeometry w { e with shapes := shs })
      e.strokeGeom).buffers.length = w.buffers.length := by simp
  have hstyles : ∀ j, readStyle (allocBuffer (disposeBuffer
      (updateFillGeometry w { e with shapes := shs }) e.strokeGeom) shs).1 j
      = readStyle w j := by intro j; simp
  have hstylen : (allocBuffer (disposeBuffer
      (updateFillGeometry w { e with shapes := shs }) e.strokeGeom) shs).1.styles.length
      = w.styles.length := by
    simp [allocBuffer, disposeBuffer, writeBuffer, updateFillGeometry]
  refine ⟨by simp, ?_, ?_, ?_, ?_, ?_, ?_⟩
  · simp only [mergeAndRefresh_fst, mergeAndRefresh_fillGeom, readBuffer_writeStyle]
    show readBuffer (allocBuffer (disposeBuffer
        (updateFillGeometry w { e with shapes := shs }) e.strokeGeom) shs).1 e.fillGeom = _
    rw [readBuffer_alloc_lt _ _ _ (by rw [hlenD]; exact hfl),
      readBuffer_dispose_ne _ _ _ (Ne.symm hfs)]
    have := readBuffer_updateFill_self w { e with shapes := shs } (by simpa using hfl)
    simpa using this
  · simp only [mergeAndRefresh_fst, mergeAndRefresh_styleRef]
    show (readStyle (writeStyle _ _ _) _).fillOpacity = 0
    rw [readStyle_set_self _ _ _ (by rw [hstylen]; exact hr)]
    simp [assignStyle, hfa, hstyles, hf0]
  · simp only [mergeAndRefresh_strokeGeom]
    show (disposeBuffer (updateFillGeometry w { e with shapes := shs })
        e.strokeGeom).buffers.length ≠ e.strokeGeom
    rw [hlenD]
    omega
  · simp only [mergeAndRefresh_fst, readBuffer_writeStyle]
    show (readBuffer (allocBuffer (disposeBuffer
        (updateFillGeometry w { e with shapes := shs }) e.strokeGeom) shs).1
        e.strokeGeom).disposed = true
    rw [readBuffer_alloc_lt _ _ _ (by rw [hlenD]; exact hsl),
      readBuffer_dispose_self _ _ (by rw [hlenF]; exact hsl)]
  · simp only [mergeAndRefresh_fst, mergeAndRefresh_strokeGeom, readBuffer_writeStyle]
    show readBuffer (allocBuffer (disposeBuffer
        (updateFillGeometry w { e with shapes := shs }) e.strokeGeom) shs).1
        (disposeBuffer (updateFillGeometry w { e with shapes := shs })
          e.strokeGeom).buffers.length = _
    exact readBuffer_alloc_self _ _
  · simp only [mergeAndRefresh_fst, mergeAndRefresh_styleRef]
    show (readStyle (writeStyle _ _ _) _).strokeOpacity = 0
    rw [readStyle_set_self _ _ _ (by rw [hstylen]; exact hr)]
    simp [assignStyle, hsa, hstyles, hs0]

/-- Witness for C6: a style-only update of a freshly constructed entity. -/
theorem update_no_redraw_witness :
    eT.styleRef < wT.styles.length ∧
    update acT insT wT eT [] { fillColor := some 5 } false = Except.ok (c6W2, c6E2) ∧
    (c6W2.buffers = wT.buffers ∧
     c6E2.fillGeom = eT.fillGeom ∧
     c6E2.strokeGeom = eT.strokeGeom ∧
     c6E2.shapes = eT.shapes ∧
     c6E2.mobjectId = eT.mobjectId ∧
     c6E2.styleRef = eT.styleRef ∧
     readBuffer c6W2 c6E2.fillGeom = readBuffer wT eT.fillGeom ∧
     readBuffer c6W2 c6E2.strokeGeom = readBuffer wT eT.strokeGeom ∧
     c6W2.styles = wT.styles.set eT.styleRef
       (assignStyle (readStyle wT eT.styleRef) { fillColor := some 5 }) ∧
     c6E2.fillMat = computeFillMaterial
       (assignStyle (readStyle wT eT.styleRef) { fillColor := some 5 }) ∧
     c6E2.strokeMat = computeStrokeMaterial
       (assignStyle (readStyle wT eT.styleRef) { fillColor := some 5 })) :=
  ⟨by decide, rfl,
   update_no_redraw acT insT wT eT [] { fillColor := some 5 } c6W2 c6E2 (by decide) rfl⟩

/-- Witness for C4: two aliased entities; an update through the first is read
by the second. -/
theorem mobject_style_alias_witness :
    defaultStyleRef < (initWorld Nat).styles.length ∧
    construct acT insT (initWorld Nat) 7 [] {} = Except.ok (wT, eT) ∧
    eT.styleRef = defaultStyleRef ∧
    update acT insT wT eT [] { fillColor := some 5 } false = Except.ok (c6W2, c6E2) ∧
    readStyle c6W2 eT.styleRef
      = assignStyle (readStyle wT eT.styleRef) { fillColor := some 5 } :=
  ⟨by decide, rfl,
   (mobject_style_alias acT insT (initWorld Nat) 7 [] {} wT eT eT []
     { fillColor := some 5 } false c6W2 c6E2 (by decide) rfl rfl rfl).1,
   rfl,
   (mobject_style_alias acT insT (initWorld Nat) 7 [] {} wT eT eT []
     { fillColor := some 5 } false c6W2 c6E2 (by decide) rfl rfl rfl).2⟩

/-- Claim C3, counterexample to the claim as stated: entity 1 is constructed
with an explicit `fillOpacity := 0`, which `Object.assign` writes into the
module-level `DEFAULT_STYLE` object itself; entity 2 is then constructed with
an empty style argument, omitting `fillOpacity`, yet its style reads fill
opacity `0` — not the documented default `1` — so a construction is not
independent of earlier constructions. -/
theorem construct_not_independent_of_history :
    construct acT insT (initWorld Nat) 1 [] { fillOpacity := some 0 }
      = Except.ok (c3W1, c3E1) ∧
    construct acT insT c3W1 2 [] {} = Except.ok (c3W2, c3E2) ∧
    (readStyle c3W2 c3E2.styleRef).fillOpacity = 0 ∧
    DEFAULT_STYLE.fillOpacity = 1 :=
  ⟨rfl, rfl, rfl, rfl⟩

/-- Witness for the amended C3 at a fresh module. -/
theorem construct_merges_over_current_shared_witness :
    defaultStyleRef < (initWorld Nat).styles.length ∧
    construct acT insT (initWorld Nat) 7 [] {} = Except.ok (wT, eT) ∧
    (readStyle wT eT.styleRef
        = assignStyle (readStyle (initWorld Nat) defaultStyleRef) {} ∧
     (initWorld Nat = initWorld Nat →
        readStyle wT eT.styleRef = assignStyle DEFAULT_STYLE {})) :=
  ⟨by decide, rfl,
   construct_merges_over_current_shared acT insT (initWorld Nat) 7 [] {} wT eT
     (by decide) rfl⟩

/-- Witness for C5: previous and incoming fill opacity both zero, previous
stroke opacity one. -/
theorem update_invisible_fill_skip_witness :
    computeShapes acT insT ([] : List Nat) = Except.ok [] ∧
    (readStyle wF0 eT.styleRef).fillOpacity = 0 ∧
    (StyleArg.fillOpacity { fillOpacity := some 0 } = some 0) ∧
    eT.fillGeom < wF0.buffers.length ∧
    eT.strokeGeom < wF0.buffers.length ∧
    eT.fillGeom ≠ eT.strokeGeom ∧
    update acT insT wF0 eT [] { fillOpacity := some 0 } true = Except.ok (c5W2, c5E2) ∧
    ((readStyle wF0 eT.styleRef).strokeOpacity ≠ 0 ∧
     c5E2.fillGeom = eT.fillGeom ∧
     readBuffer c5W2 c5E2.fillGeom = readBuffer wF0 eT.fillGeom ∧
     c5E2.strokeGeom ≠ eT.strokeGeom ∧
     (readBuffer c5W2 eT.strokeGeom).disposed = true ∧
     readBuffer c5W2 c5E2.strokeGeom = { content := [], version := 0, disposed := false }) := by
  have h := update_invisible_fill_skip acT insT wF0 eT [] { fillOpacity := some 0 }
    [] c5W2 c5E2 rfl rfl rfl (by decide) (by decide) (by decide) rfl
  have hs := h.2.2 (Or.inl (by decide))
  exact ⟨rfl, rfl, rfl, by decide, by decide, by decide, rfl,
    by decide, h.1, h.2.1, hs.1, hs.2.1, hs.2.2⟩

/-- Witness for C10: both current opacities zero and both incoming opacity
fields omitted. -/
theorem update_omitted_opacity_rebuilds_witness :
    computeShapes acT insT ([] : List Nat) = Except.ok [] ∧
    (readStyle wZ eT.styleRef).fillOpacity = 0 ∧
    StyleArg.fillOpacity {} = none ∧
    (readStyle wZ eT.styleRef).strokeOpacity = 0 ∧
    StyleArg.strokeOpacity {} = none ∧
    eT.styleRef < wZ.styles.length ∧
    eT.fillGeom < wZ.buffers.length ∧
    eT.strokeGeom < wZ.buffers.length ∧
    eT.fillGeom ≠ eT.strokeGeom ∧
    update acT insT wZ eT [] {} true = Except.ok (c10W2, c10E2) ∧
    (c10E2.fillGeom = eT.fillGeom ∧
     readBuffer c10W2 c10E2.fillGeom
       = { content := [], version := (readBuffer wZ eT.fillGeom).version + 1,
           disposed := (readBuffer wZ eT.fillGeom).disposed } ∧
     (readStyle c10W2 c10E2.styleRef).fillOpacity = 0 ∧
     c10E2.strokeGeom ≠ eT.strokeGeom ∧
     (readBuffer c10W2 eT.strokeGeom).disposed = true ∧
     readBuffer c10W2 c10E2.strokeGeom = { content := [], version := 0, disposed := false } ∧
     (readStyle c10W2 c10E2.styleRef).strokeOpacity = 0) :=
  ⟨rfl, rfl, rfl, rfl, rfl, by decide, by decide, by decide, by decide, rfl,
   update_omitted_opacity_rebuilds acT insT wZ eT [] {} [] c10W2 c10E2
     rfl rfl rfl rfl rfl (by decide) (by decide) (by decide) (by decide) rfl⟩

end ManimRenderer
